import Mathlib

/-!
Shallow embedding of the nanobot contact-ledger and dispatch-client code.

Source files embedded:
- nanobot/skills/lead-finder/scripts/lead_tracker.py  (Contact Ledger)
- nanobot/agent/tools/send_whatsapp.py                (Dispatch Client)

Modelling conventions:
- Python strings are Lean Strings; per-character work goes through
  String.toList.  The predicate Char.isDigit models both the Python
  str.isdigit test and the regex character class of decimal digits.
- The persisted JSON file is a StoreState: missing file, malformed
  content, or a well-formed list of records.  Reading the file is the
  function load, translated from the Python loader, which degrades the
  first two cases to the empty list.  Writing is save.
- Effectful clock reads (datetime.now) become explicit String
  parameters, one per call site, in source order.
- The dispatch network environment (websockets import, connection,
  bridge reply or its absence) is a BridgeEnv value; execute consumes
  it and additionally reports the outbound request it transmitted, if
  any, so the wire protocol can be stated.
-/

namespace LeadTracker

/-- One record of the ledger, with the fields written by add_lead. -/
structure Lead where
  phone : String
  phone_normalized : String
  name : String
  source : String
  message_type : String
  status : String
  date_added : String
  date_updated : String
  notes : String
deriving DecidableEq

/-- State of the persisted JSON file backing the ledger. -/
inductive StoreState where
  | missing
  | malformed
  | wellFormed (leads : List Lead)
deriving DecidableEq

/-- Translation of _load: a missing file or undecodable content yields
the empty collection; otherwise the decoded records. -/
def load : StoreState → List Lead
  | StoreState.missing => []
  | StoreState.malformed => []
  | StoreState.wellFormed leads => leads

/-- Translation of _save: the file afterwards holds exactly the written
records as a well-formed document. -/
def save (leads : List Lead) : StoreState :=
  StoreState.wellFormed leads

/-- Translation of _normalize_phone: keep a single leading plus when the
input starts with one, and otherwise only the digits, in order. -/
def normalize_phone (phone : String) : String :=
  if phone.toList.head? = some '+' then
    ("+") ++ String.mk ((phone.toList.drop 1).filter Char.isDigit)
  else
    String.mk (phone.toList.filter Char.isDigit)

/-- The duplicate test used by add_lead, check_lead and update_lead:
the stored phone and the query phone normalize to the same key. -/
def sameContact (stored query : String) : Bool :=
  normalize_phone stored == normalize_phone query

/-- Translation of add_lead. The two timestamp parameters t1 and t2 are
the results of the two successive datetime.now calls, in source order. -/
def add_lead (store : StoreState) (phone : String) (name : String)
    (source : String) (message : String) (t1 : String) (t2 : String) :
    String × StoreState :=
  let leads := load store
  match leads.find? (fun lead => sameContact lead.phone phone) with
  | some lead =>
      ("DUPLICATE: " ++ phone ++ " already in tracker (added " ++
        lead.date_added ++ ")", store)
  | none =>
      let newLead : Lead :=
        { phone := phone
          phone_normalized := normalize_phone phone
          name := name
          source := source
          message_type := message
          status := "contacted"
          date_added := t1
          date_updated := t2
          notes := "" }
      ("OK: Added " ++ phone ++ " (" ++ name ++ ") from " ++ source,
        save (leads ++ [newLead]))

/-- Translation of check_lead. -/
def check_lead (store : StoreState) (phone : String) : String :=
  let leads := load store
  match leads.find? (fun lead => sameContact lead.phone phone) with
  | some lead =>
      "FOUND: " ++ lead.phone ++ " | " ++ lead.name ++ " | status=" ++
        lead.status ++ " | source=" ++ lead.source ++ " | added=" ++
        lead.date_added
  | none =>
      "NOT_FOUND: " ++ phone ++ " is not in the tracker — safe to contact"

/-- The in-place mutation of the first matching record inside the update
loop: overwrite status and notes only when the supplied value is
non-empty, always refresh date_updated. -/
def applyUpdate (lead : Lead) (status : String) (notes : String)
    (t : String) : Lead :=
  { lead with
      status := if status = ("") then lead.status else status
      notes := if notes = ("") then lead.notes else notes
      date_updated := t }

/-- The update loop of update_lead: walk the list, rewrite the first
record matching the query phone, return the rewritten list and the
resulting status; none when no record matches. -/
def updateFirst (phone : String) (status : String) (notes : String)
    (t : String) : List Lead → Option (List Lead × String)
  | [] => none
  | lead :: rest =>
      if sameContact lead.phone phone then
        let updated := applyUpdate lead status notes t
        some (updated :: rest, updated.status)
      else
        match updateFirst phone status notes t rest with
        | some (rest2, s) => some (lead :: rest2, s)
        | none => none

/-- Translation of update_lead. The t parameter is the datetime.now
result used to refresh date_updated. -/
def update_lead (store : StoreState) (phone : String) (status : String)
    (notes : String) (t : String) : String × StoreState :=
  let leads := load store
  match updateFirst phone status notes t leads with
  | some (leads2, newStatus) =>
      ("OK: Updated " ++ phone ++ " → status=" ++ newStatus, save leads2)
  | none =>
      ("NOT_FOUND: " ++ phone, store)

/-- One numbered line of the list_leads rendering. -/
def leadLine (i : Nat) (l : Lead) : String :=
  toString i ++ ". " ++ l.phone ++ " | " ++ l.name ++ " | status=" ++
    l.status ++ " | source=" ++ l.source ++ " | " ++ l.date_added

/-- Translation of list_leads: optional status filter, then either the
empty marker or a numbered rendering of every record. -/
def list_leads (store : StoreState) (status : String) : String :=
  let leads := load store
  let leads :=
    if status = ("") then leads
    else leads.filter (fun l => l.status == status)
  if leads.isEmpty then ("No leads found.")
  else
    String.intercalate ("\n")
      (("Total: " ++ toString leads.length ++ " leads\n") ::
        (leads.enumFrom 1).map (fun p => leadLine p.1 p.2))

/-- The counting dictionaries of stats, rendered sorted by key as the
Python sorted(dict.items()) does. -/
def tallySorted (keys : List String) : List (String × Nat) :=
  (keys.eraseDups.mergeSort (fun a b => decide (a ≤ b))).map
    (fun k => (k, (keys.filter (fun x => x == k)).length))

/-- Translation of stats. -/
def stats (store : StoreState) : String :=
  let leads := load store
  if leads.isEmpty then ("No leads yet.")
  else
    let by_status := tallySorted (leads.map (fun l => l.status))
    let by_source := tallySorted (leads.map (fun l => l.source))
    String.intercalate ("\n")
      ((("Total leads: " ++ toString leads.length ++ "\n") ::
          ("By status:") ::
          by_status.map (fun kv => "  " ++ kv.1 ++ ": " ++ toString kv.2)) ++
        (("\nBy source:") ::
          by_source.map (fun kv => "  " ++ kv.1 ++ ": " ++ toString kv.2)))

end LeadTracker

namespace SendWhatsApp

/-- Default bridge endpoint of SendWhatsAppTool. -/
def default_bridge_url : String := "ws://localhost:3001"

/-- Translation of SendWhatsAppTool._normalize_phone: drop every
non-digit character, the leading plus included. -/
def normalize_phone (phone : String) : String :=
  String.mk (phone.toList.filter Char.isDigit)

/-- Translation of SendWhatsAppTool._phone_to_jid. -/
def phone_to_jid (phone : String) : String :=
  String.mk (phone.toList.filter Char.isDigit) ++ "@s.whatsapp.net"

/-- The fixed bound, in seconds, of the wait for the bridge reply. -/
def recv_timeout : Nat := 15

/-- The outbound JSON object transmitted to the bridge. -/
structure SendRequest where
  type : String
  «to» : String
  text : String
deriving DecidableEq

/-- External environment of one execute call: the websockets import
fails, the connection is refused, some other transport failure occurs,
the reply wait times out after recv_timeout, or a JSON reply arrives
carrying optional type and error fields. -/
inductive BridgeEnv where
  | noWebsockets
  | connectRefused
  | transportFailure (e : String)
  | timeout
  | reply (type : Option String) (error : Option String)
deriving DecidableEq

/-- Translation of SendWhatsAppTool.execute. The first component of the
result is the request transmitted over the connection, when one was
transmitted; the second is the returned status string. -/
def execute (bridge_url : String) (phone : String) (message : String)
    (env : BridgeEnv) : Option SendRequest × String :=
  if phone = ("") ∨ message = ("") then
    (none, "Error: Both \x27phone\x27 and \x27message\x27 are required.")
  else
    if (normalize_phone phone).length < 7 ∨ 15 < (normalize_phone phone).length then
      (none, "Error: Invalid phone number \x27" ++ phone ++
        "\x27 — must be 7-15 digits with country code.")
    else
      match env with
      | BridgeEnv.noWebsockets =>
          (none,
            "Error: \x27websockets\x27 package required. Install: pip install websockets")
      | BridgeEnv.connectRefused =>
          (none, "Error: Cannot connect to WhatsApp bridge at " ++
            bridge_url ++ ". Make sure the bridge is running (cd bridge && npm start).")
      | BridgeEnv.transportFailure e =>
          (none, "Error sending WhatsApp message: " ++ e)
      | BridgeEnv.timeout =>
          (some { type := "send", «to» := phone_to_jid phone, text := message },
            "Warning: Message sent but no confirmation received (timeout). Check bridge logs.")
      | BridgeEnv.reply t err =>
          (some { type := "send", «to» := phone_to_jid phone, text := message },
            if t = some ("sent") then
              ("OK: Message sent to ") ++ phone ++ " (" ++ phone_to_jid phone ++ ")"
            else if t = some ("error") then
              ("Error from bridge: ") ++ err.getD ("unknown")
            else
              ("OK: Message dispatched to ") ++ phone ++ " (" ++ phone_to_jid phone ++ ")")

end SendWhatsApp

/-! Helper lemmas about strings viewed as character lists. -/

theorem string_toList_append (a b : String) :
    (a ++ b).toList = a.toList ++ b.toList :=
  String.data_append a b

theorem prefix_string_append {p a : String} (b : String)
    (h : p.toList <+: a.toList) : p.toList <+: (a ++ b).toList := by
  rw [string_toList_append]
  exact h.trans (List.prefix_append _ _)

theorem head_string_append {a : String} (b : String) {c : Char}
    (h : a.toList.head? = some c) : (a ++ b).toList.head? = some c := by
  rw [string_toList_append, List.head?_append, h]
  rfl

theorem not_prefix_of_head {p l : List Char} (c d : Char)
    (hp : p.head? = some c) (hl : l.head? = some d) (hcd : c ≠ d) :
    ¬ p <+: l := by
  rintro ⟨t, rfl⟩
  cases p with
  | nil => simp at hp
  | cons x xs =>
      simp only [List.head?_cons, Option.some.injEq] at hp
      simp only [List.cons_append, List.head?_cons, Option.some.injEq] at hl
      exact hcd (by rw [← hp, hl])

theorem string_ne_of_head {a b : String} (c d : Char)
    (ha : a.toList.head? = some c) (hb : b.toList.head? = some d)
    (hcd : c ≠ d) : a ≠ b := by
  intro e
  rw [e, hb] at ha
  exact hcd (Option.some.inj ha).symm

/-! Helper lemmas about the ledger operations. -/

namespace LeadTracker

theorem sameContact_iff {stored query : String} :
    sameContact stored query = true ↔
      normalize_phone stored = normalize_phone query := by
  simp [sameContact]

theorem find?_sameContact_eq_none {l : List Lead} {phone : String} :
    l.find? (fun lead => sameContact lead.phone phone) = none ↔
      ∀ lead ∈ l, normalize_phone lead.phone ≠ normalize_phone phone := by
  simp [List.find?_eq_none, sameContact]

theorem add_lead_of_found {store : StoreState} {phone : String}
    {lead : Lead}
    (hfind : (load store).find? (fun x => sameContact x.phone phone) =
      some lead)
    (name source message t1 t2 : String) :
    add_lead store phone name source message t1 t2 =
      ("DUPLICATE: " ++ phone ++ " already in tracker (added " ++
        lead.date_added ++ ")", store) := by
  unfold add_lead
  simp only [hfind]

theorem add_lead_of_not_found {store : StoreState} {phone : String}
    (hfind : (load store).find? (fun x => sameContact x.phone phone) = none)
    (name source message t1 t2 : String) :
    add_lead store phone name source message t1 t2 =
      ("OK: Added " ++ phone ++ " (" ++ name ++ ") from " ++ source,
        save (load store ++
          [{ phone := phone
             phone_normalized := normalize_phone phone
             name := name
             source := source
             message_type := message
             status := "contacted"
             date_added := t1
             date_updated := t2
             notes := "" }])) := by
  unfold add_lead
  simp only [hfind]

theorem check_lead_of_found {store : StoreState} {phone : String}
    {lead : Lead}
    (hfind : (load store).find? (fun x => sameContact x.phone phone) =
      some lead) :
    check_lead store phone =
      "FOUND: " ++ lead.phone ++ " | " ++ lead.name ++ " | status=" ++
        lead.status ++ " | source=" ++ lead.source ++ " | added=" ++
        lead.date_added := by
  unfold check_lead
  simp only [hfind]

theorem check_lead_of_not_found {store : StoreState} {phone : String}
    (hfind : (load store).find? (fun x => sameContact x.phone phone) = none) :
    check_lead store phone =
      "NOT_FOUND: " ++ phone ++ " is not in the tracker — safe to contact" := by
  unfold check_lead
  simp only [hfind]

theorem updateFirst_eq_none {phone status notes t : String}
    {l : List Lead} :
    updateFirst phone status notes t l = none ↔
      ∀ lead ∈ l, normalize_phone lead.phone ≠ normalize_phone phone := by
  induction l with
  | nil => simp [updateFirst]
  | cons lead rest ih =>
      simp only [updateFirst]
      cases h : sameContact lead.phone phone with
      | true =>
          rw [if_pos rfl]
          constructor
          · intro hc
            exact absurd hc (by simp)
          · intro hall
            exact absurd (sameContact_iff.mp h)
              (hall lead (List.mem_cons_self lead rest))
      | false =>
          rw [if_neg (by simp)]
          cases hr : updateFirst phone status notes t rest with
          | none =>
              simp only [hr]
              constructor
              · intro _ x hx
                rcases List.mem_cons.mp hx with rfl | hx2
                · intro he
                  have hT := sameContact_iff.mpr he
                  rw [h] at hT
                  cases hT
                · exact ih.mp hr x hx2
              · intro _
                exact trivial
          | some p =>
              obtain ⟨rest2, s⟩ := p
              simp only [hr]
              constructor
              · intro hc
                exact absurd hc (by simp)
              · intro hall
                have hn : updateFirst phone status notes t rest = none :=
                  ih.mpr (fun x hx => hall x (List.mem_cons_of_mem lead hx))
                rw [hr] at hn
                exact Option.noConfusion hn

theorem updateFirst_eq_some {phone status notes t : String}
    {l l2 : List Lead} {s : String}
    (he : updateFirst phone status notes t l = some (l2, s)) :
    ∃ pre lead post,
      l = pre ++ lead :: post ∧
      (∀ x ∈ pre, normalize_phone x.phone ≠ normalize_phone phone) ∧
      normalize_phone lead.phone = normalize_phone phone ∧
      l2 = pre ++ applyUpdate lead status notes t :: post ∧
      s = (applyUpdate lead status notes t).status := by
  induction l generalizing l2 s with
  | nil => simp [updateFirst] at he
  | cons lead rest ih =>
      simp only [updateFirst] at he
      cases h : sameContact lead.phone phone with
      | true =>
          rw [h, if_pos rfl] at he
          have hp := Option.some.inj he
          have h1 : applyUpdate lead status notes t :: rest = l2 :=
            congrArg Prod.fst hp
          have h2 : (applyUpdate lead status notes t).status = s :=
            congrArg Prod.snd hp
          exact ⟨[], lead, rest, by simp, by simp, sameContact_iff.mp h,
            h1.symm, h2.symm⟩
      | false =>
          rw [h, if_neg (by simp)] at he
          cases hr : updateFirst phone status notes t rest with
          | none =>
              rw [hr] at he
              simp at he
          | some p =>
              obtain ⟨rest2, s'⟩ := p
              rw [hr] at he
              have hp := Option.some.inj he
              have h1 : lead :: rest2 = l2 := congrArg Prod.fst hp
              have h2 : s' = s := congrArg Prod.snd hp
              obtain ⟨pre, lead', post, hl, hpre, hm, hl2, hs⟩ := ih hr
              refine ⟨lead :: pre, lead', post, by rw [hl]; rfl, ?_, hm,
                ?_, ?_⟩
              · intro x hx
                rcases List.mem_cons.mp hx with rfl | hx2
                · intro he'
                  have hT := sameContact_iff.mpr he'
                  rw [h] at hT
                  cases hT
                · exact hpre x hx2
              · rw [← h1, hl2]
                rfl
              · rw [← h2]
                exact hs

theorem updateFirst_isSome_of_mem {phone status notes t : String}
    {l : List Lead}
    (h : ∃ lead ∈ l, normalize_phone lead.phone = normalize_phone phone) :
    ∃ l2 s, updateFirst phone status notes t l = some (l2, s) := by
  cases hu : updateFirst phone status notes t l with
  | none =>
      obtain ⟨lead, hm, he⟩ := h
      exact absurd he (updateFirst_eq_none.mp hu lead hm)
  | some p =>
      obtain ⟨l2, s⟩ := p
      exact ⟨l2, s, rfl⟩

theorem update_lead_of_none {store : StoreState}
    {phone status notes t : String}
    (h : ∀ lead ∈ load store,
      normalize_phone lead.phone ≠ normalize_phone phone) :
    update_lead store phone status notes t =
      ("NOT_FOUND: " ++ phone, store) := by
  unfold update_lead
  simp only [updateFirst_eq_none.mpr h]

theorem update_lead_of_some {store : StoreState}
    {phone status notes t : String} {l2 : List Lead} {s : String}
    (hu : updateFirst phone status notes t (load store) = some (l2, s)) :
    update_lead store phone status notes t =
      ("OK: Updated " ++ phone ++ " → status=" ++ s, save l2) := by
  unfold update_lead
  simp only [hu]

end LeadTracker

/-! Helper lemmas about the dispatch client. -/

namespace SendWhatsApp

theorem execute_empty_eq (url : String) {phone message : String}
    (h : phone = ("") ∨ message = ("")) (env : BridgeEnv) :
    execute url phone message env =
      (none, "Error: Both \x27phone\x27 and \x27message\x27 are required.") := by
  unfold execute
  rw [if_pos h]

theorem execute_badlen_eq (url : String) {phone message : String}
    (hp : phone ≠ ("")) (hm : message ≠ (""))
    (h : (normalize_phone phone).length < 7 ∨
      15 < (normalize_phone phone).length) (env : BridgeEnv) :
    execute url phone message env =
      (none, "Error: Invalid phone number \x27" ++ phone ++
        "\x27 — must be 7-15 digits with country code.") := by
  unfold execute
  rw [if_neg (by simp [hp, hm]), if_pos h]

theorem execute_timeout_eq (url : String) {phone message : String}
    (hp : phone ≠ ("")) (hm : message ≠ (""))
    (h7 : 7 ≤ (normalize_phone phone).length)
    (h15 : (normalize_phone phone).length ≤ 15) :
    execute url phone message BridgeEnv.timeout =
      (some { type := "send", «to» := phone_to_jid phone, text := message },
        "Warning: Message sent but no confirmation received (timeout). Check bridge logs.") := by
  unfold execute
  rw [if_neg (by simp [hp, hm]),
    if_neg (by simp only [not_or, not_lt]; exact ⟨h7, h15⟩)]

theorem execute_reply_eq (url : String) {phone message : String}
    (hp : phone ≠ ("")) (hm : message ≠ (""))
    (h7 : 7 ≤ (normalize_phone phone).length)
    (h15 : (normalize_phone phone).length ≤ 15)
    (t err : Option String) :
    execute url phone message (BridgeEnv.reply t err) =
      (some { type := "send", «to» := phone_to_jid phone, text := message },
        if t = some ("sent") then
          ("OK: Message sent to ") ++ phone ++ " (" ++ phone_to_jid phone ++ ")"
        else if t = some ("error") then
          ("Error from bridge: ") ++ err.getD ("unknown")
        else
          ("OK: Message dispatched to ") ++ phone ++ " (" ++
            phone_to_jid phone ++ ")") := by
  unfold execute
  rw [if_neg (by simp [hp, hm]),
    if_neg (by simp only [not_or, not_lt]; exact ⟨h7, h15⟩)]

end SendWhatsApp

/-! Claim theorems. -/

namespace LeadTracker

/-- C1: whenever some stored record's phone has the same comparison-key
normalization as the given phone, add_lead returns the DUPLICATE outcome
carrying that record's date_added and leaves the persisted store
completely unchanged; in particular, after a successful first add, a
second add of any phone with the same normalization is rejected with the
first add's date_added and without mutating the store. -/
theorem C1_add_duplicate_rejected (store : StoreState)
    (phone phone2 name name2 source source2 msg msg2
      t1 t2 t3 t4 : String) :
    ((∃ lead ∈ load store,
        normalize_phone lead.phone = normalize_phone phone) →
      (add_lead store phone name source msg t1 t2).2 = store ∧
      ∃ lead ∈ load store,
        normalize_phone lead.phone = normalize_phone phone ∧
        (add_lead store phone name source msg t1 t2).1 =
          "DUPLICATE: " ++ phone ++ " already in tracker (added " ++
            lead.date_added ++ ")") ∧
    ((∀ lead ∈ load store,
        normalize_phone lead.phone ≠ normalize_phone phone) →
      normalize_phone phone2 = normalize_phone phone →
      add_lead (add_lead store phone name source msg t1 t2).2 phone2
          name2 source2 msg2 t3 t4 =
        ("DUPLICATE: " ++ phone2 ++ " already in tracker (added " ++
            t1 ++ ")",
          (add_lead store phone name source msg t1 t2).2)) := by
  constructor
  · intro h
    cases hfind : (load store).find? (fun x => sameContact x.phone phone) with
    | none =>
        obtain ⟨lead, hm, he⟩ := h
        exact absurd he (find?_sameContact_eq_none.mp hfind lead hm)
    | some lead =>
        have heq := add_lead_of_found hfind name source msg t1 t2
        have hx' := List.find?_some hfind
        have hx : sameContact lead.phone phone = true := hx'
        exact ⟨by rw [heq], lead, List.mem_of_find?_eq_some hfind,
          sameContact_iff.mp hx, by rw [heq]⟩
  · intro hnone heq2
    have hfind : (load store).find? (fun x => sameContact x.phone phone) =
        none := find?_sameContact_eq_none.mpr hnone
    rw [add_lead_of_not_found hfind name source msg t1 t2]
    have hfind2 :
        (load (save (load store ++
          [{ phone := phone
             phone_normalized := normalize_phone phone
             name := name
             source := source
             message_type := msg
             status := "contacted"
             date_added := t1
             date_updated := t2
             notes := "" }]))).find?
            (fun x => sameContact x.phone phone2) =
          some { phone := phone
                 phone_normalized := normalize_phone phone
                 name := name
                 source := source
                 message_type := msg
                 status := "contacted"
                 date_added := t1
                 date_updated := t2
                 notes := "" } := by
      show (load store ++ [_]).find? _ = _
      rw [List.find?_append]
      have h1 : (load store).find? (fun x => sameContact x.phone phone2) =
          none := by
        apply find?_sameContact_eq_none.mpr
        intro lead hm
        rw [heq2]
        exact hnone lead hm
      rw [h1]
      have h2 : sameContact phone phone2 = true :=
        sameContact_iff.mpr heq2.symm
      simp [List.find?, h2]
    rw [add_lead_of_found hfind2 name2 source2 msg2 t3 t4]

/-- Witness for C1: a store holding "+1 234-567-890" rejects an add of
"+1234567890" as a duplicate, unchanged store. -/
theorem C1_add_duplicate_rejected_witness :
    (add_lead (StoreState.wellFormed
        [{ phone := "+1 234-567-890", phone_normalized := "+1234567890",
           name := "A", source := "s", message_type := "m",
           status := "contacted", date_added := "T0", date_updated := "T0",
           notes := "" }])
      "+1234567890" "B" "s2" "m2" "T1" "T2").1 =
        "DUPLICATE: +1234567890 already in tracker (added T0)" ∧
    (add_lead (StoreState.wellFormed
        [{ phone := "+1 234-567-890", phone_normalized := "+1234567890",
           name := "A", source := "s", message_type := "m",
           status := "contacted", date_added := "T0", date_updated := "T0",
           notes := "" }])
      "+1234567890" "B" "s2" "m2" "T1" "T2").2 =
        StoreState.wellFormed
          [{ phone := "+1 234-567-890", phone_normalized := "+1234567890",
             name := "A", source := "s", message_type := "m",
             status := "contacted", date_added := "T0", date_updated := "T0",
             notes := "" }] := by
  have h := (C1_add_duplicate_rejected (StoreState.wellFormed
      [{ phone := "+1 234-567-890", phone_normalized := "+1234567890",
         name := "A", source := "s", message_type := "m",
         status := "contacted", date_added := "T0", date_updated := "T0",
         notes := "" }])
    "+1234567890" "x" "B" "x" "s2" "x" "m2" "x" "T1" "T2" "x" "x").1
    ⟨{ phone := "+1 234-567-890", phone_normalized := "+1234567890",
       name := "A", source := "s", message_type := "m",
       status := "contacted", date_added := "T0", date_updated := "T0",
       notes := "" }, List.mem_singleton.mpr rfl, by rfl⟩
  obtain ⟨hstore, lead, hmem, hnorm, hmsg⟩ := h
  have hl := List.mem_singleton.mp hmem
  subst hl
  exact ⟨by rw [hmsg]; rfl, hstore⟩

theorem string_empty_append (s : String) : ("") ++ s = s := by
  cases s with
  | mk data => rfl

/-- C2: the comparison-key normalization returns exactly the decimal
digits of the input in order, prefixed by a single leading plus exactly
when the input begins with one; and add_lead, check_lead and update_lead
treat two phone strings as the same contact exactly when their
normalized forms are identical strings. -/
theorem C2_normalize_phone_spec :
    (∀ phone : String,
        normalize_phone phone =
          (if phone.toList.head? = some '+' then ("+") else ("")) ++
            String.mk (phone.toList.filter Char.isDigit)) ∧
    (∀ store phone,
        ("FOUND".toList <+: (check_lead store phone).toList ↔
          ∃ lead ∈ load store,
            normalize_phone lead.phone = normalize_phone phone)) ∧
    (∀ store phone name source msg t1 t2,
        ("DUPLICATE".toList <+:
            (add_lead store phone name source msg t1 t2).1.toList ↔
          ∃ lead ∈ load store,
            normalize_phone lead.phone = normalize_phone phone)) ∧
    (∀ store phone status notes t,
        ("OK".toList <+:
            (update_lead store phone status notes t).1.toList ↔
          ∃ lead ∈ load store,
            normalize_phone lead.phone = normalize_phone phone)) := by
  refine ⟨?_, ?_, ?_, ?_⟩
  · intro phone
    by_cases h : phone.toList.head? = some '+'
    · rw [normalize_phone, if_pos h, if_pos h]
      cases hl : phone.toList with
      | nil => rw [hl] at h; simp at h
      | cons c cs =>
          rw [hl] at h
          simp only [List.head?_cons, Option.some.injEq] at h
          subst h
          have hf : List.filter Char.isDigit ('+' :: cs) =
              List.filter Char.isDigit cs :=
            List.filter_cons_of_neg (by decide)
          rw [hf]
          rfl
    · rw [normalize_phone, if_neg h, if_neg h]
      exact (string_empty_append _).symm
  · intro store phone
    cases hfind : (load store).find? (fun x => sameContact x.phone phone) with
    | some lead =>
        rw [check_lead_of_found hfind]
        have hx' := List.find?_some hfind
        have hx : sameContact lead.phone phone = true := hx'
        constructor
        · intro _
          exact ⟨lead, List.mem_of_find?_eq_some hfind,
            sameContact_iff.mp hx⟩
        · intro _
          repeat apply prefix_string_append
          decide
    | none =>
        rw [check_lead_of_not_found hfind]
        constructor
        · intro hpre
          have hh : ("NOT_FOUND: " ++ phone ++
              " is not in the tracker — safe to contact").toList.head? =
                some 'N' := by
            repeat apply head_string_append
            decide
          exact absurd hpre
            (not_prefix_of_head 'F' 'N' (by decide) hh (by decide))
        · intro hex
          obtain ⟨lead, hm, he⟩ := hex
          exact absurd he (find?_sameContact_eq_none.mp hfind lead hm)
  · intro store phone name source msg t1 t2
    cases hfind : (load store).find? (fun x => sameContact x.phone phone) with
    | some lead =>
        rw [add_lead_of_found hfind name source msg t1 t2]
        have hx' := List.find?_some hfind
        have hx : sameContact lead.phone phone = true := hx'
        constructor
        · intro _
          exact ⟨lead, List.mem_of_find?_eq_some hfind,
            sameContact_iff.mp hx⟩
        · intro _
          repeat apply prefix_string_append
          decide
    | none =>
        rw [add_lead_of_not_found hfind name source msg t1 t2]
        constructor
        · intro hpre
          have hh : ("OK: Added " ++ phone ++ " (" ++ name ++
              ") from " ++ source).toList.head? = some 'O' := by
            repeat apply head_string_append
            decide
          exact absurd hpre
            (not_prefix_of_head 'D' 'O' (by decide) hh (by decide))
        · intro hex
          obtain ⟨lead, hm, he⟩ := hex
          exact absurd he (find?_sameContact_eq_none.mp hfind lead hm)
  · intro store phone status notes t
    constructor
    · intro hpre
      by_cases hex : ∃ lead ∈ load store,
          normalize_phone lead.phone = normalize_phone phone
      · exact hex
      · push_neg at hex
        rw [update_lead_of_none hex] at hpre
        have hh : ("NOT_FOUND: " ++ phone).toList.head? = some 'N' :=
          head_string_append _ (by decide)
        exact absurd hpre
          (not_prefix_of_head 'O' 'N' (by decide) hh (by decide))
    · intro hex
      obtain ⟨l2, s, hu⟩ := updateFirst_isSome_of_mem hex
      rw [update_lead_of_some hu]
      repeat apply prefix_string_append
      decide

/-- Witness for C2: concrete normalizations with and without a leading
plus. -/
theorem C2_normalize_phone_spec_witness :
    normalize_phone ("+1 (23) 4-5") = "+12345" ∧
    normalize_phone ("1 (23) 4-5") = "12345" := by
  have h := C2_normalize_phone_spec.1
  exact ⟨(h ("+1 (23) 4-5")).trans (by decide),
    (h ("1 (23) 4-5")).trans (by decide)⟩

/-- C4: on a missing or malformed backing store every ledger operation
behaves as if the collection were empty and returns a normal outcome:
check_lead reports NOT_FOUND, list_leads reports no leads, stats reports
no records, and a successful add_lead rewrites a fresh well-formed
one-record collection. -/
theorem C4_degraded_store (store : StoreState)
    (phone name source msg t1 t2 filt : String)
    (h : store = StoreState.missing ∨ store = StoreState.malformed) :
    check_lead store phone =
      "NOT_FOUND: " ++ phone ++ " is not in the tracker — safe to contact" ∧
    list_leads store filt = "No leads found." ∧
    stats store = "No leads yet." ∧
    add_lead store phone name source msg t1 t2 =
      ("OK: Added " ++ phone ++ " (" ++ name ++ ") from " ++ source,
        StoreState.wellFormed
          [{ phone := phone, phone_normalized := normalize_phone phone,
             name := name, source := source, message_type := msg,
             status := "contacted", date_added := t1, date_updated := t2,
             notes := "" }]) := by
  have hload : load store = [] := by
    rcases h with rfl | rfl <;> rfl
  refine ⟨?_, ?_, ?_, ?_⟩
  · exact check_lead_of_not_found (by rw [hload]; rfl)
  · simp [list_leads, hload]
  · simp [stats, hload]
  · rw [add_lead_of_not_found (by rw [hload]; rfl) name source msg t1 t2,
      hload]
    rfl

/-- Witness for C4 at the missing store. -/
theorem C4_degraded_store_witness :
    check_lead StoreState.missing ("+777") =
      "NOT_FOUND: +777 is not in the tracker — safe to contact" ∧
    list_leads StoreState.missing ("") = "No leads found." ∧
    stats StoreState.missing = "No leads yet." ∧
    add_lead StoreState.missing ("+777") "N" "S" "M" "T1" "T2" =
      ("OK: Added +777 (N) from S",
        StoreState.wellFormed
          [{ phone := "+777", phone_normalized := "+777", name := "N",
             source := "S", message_type := "M", status := "contacted",
             date_added := "T1", date_updated := "T2", notes := "" }]) := by
  obtain ⟨h1, h2, h3, h4⟩ := C4_degraded_store StoreState.missing ("+777")
    "N" "S" "M" "T1" "T2" "" (Or.inl rfl)
  exact ⟨h1.trans (by rfl), h2, h3, h4.trans (by rfl)⟩

/-- C7: when some stored record matches the phone by comparison key,
update_lead rewrites exactly the first matching record: status is
overwritten exactly when the supplied status is non-empty, notes exactly
when the supplied notes is non-empty, date_updated is refreshed, the
whole collection is persisted with every other record unchanged, and the
result is OK with the resulting status; the rewritten record keeps its
phone, phone_normalized, name, source, message_type and date_added.
When no record matches, update_lead returns NOT_FOUND and leaves the
store unchanged. -/
theorem C7_update_lead_spec (store : StoreState)
    (phone status notes t : String) :
    ((∃ lead ∈ load store,
        normalize_phone lead.phone = normalize_phone phone) →
      ∃ pre lead post,
        load store = pre ++ lead :: post ∧
        (∀ x ∈ pre, normalize_phone x.phone ≠ normalize_phone phone) ∧
        normalize_phone lead.phone = normalize_phone phone ∧
        update_lead store phone status notes t =
          ("OK: Updated " ++ phone ++ " → status=" ++
              (applyUpdate lead status notes t).status,
            StoreState.wellFormed
              (pre ++ applyUpdate lead status notes t :: post)) ∧
        (applyUpdate lead status notes t).status =
          (if status = ("") then lead.status else status) ∧
        (applyUpdate lead status notes t).notes =
          (if notes = ("") then lead.notes else notes) ∧
        (applyUpdate lead status notes t).date_updated = t ∧
        (applyUpdate lead status notes t).phone = lead.phone ∧
        (applyUpdate lead status notes t).phone_normalized =
          lead.phone_normalized ∧
        (applyUpdate lead status notes t).name = lead.name ∧
        (applyUpdate lead status notes t).source = lead.source ∧
        (applyUpdate lead status notes t).message_type =
          lead.message_type ∧
        (applyUpdate lead status notes t).date_added = lead.date_added) ∧
    ((∀ lead ∈ load store,
        normalize_phone lead.phone ≠ normalize_phone phone) →
      update_lead store phone status notes t =
        ("NOT_FOUND: " ++ phone, store)) := by
  constructor
  · intro hex
    obtain ⟨l2, s, hu⟩ := updateFirst_isSome_of_mem hex
    obtain ⟨pre, lead, post, hl, hpre, hm, hl2, hs⟩ := updateFirst_eq_some hu
    refine ⟨pre, lead, post, hl, hpre, hm, ?_, rfl, rfl, rfl, rfl, rfl,
      rfl, rfl, rfl, rfl⟩
    rw [update_lead_of_some hu, hs, hl2]
    rfl
  · intro hnone
    exact update_lead_of_none hnone

/-- Witness for C7: updating the status of the only stored record. -/
theorem C7_update_lead_spec_witness :
    update_lead (StoreState.wellFormed
        [{ phone := "+444", phone_normalized := "+444", name := "N",
           source := "S", message_type := "M", status := "contacted",
           date_added := "T1", date_updated := "T1", notes := "" }])
      "+444" "responded" "" "T9" =
      ("OK: Updated +444 → status=responded",
        StoreState.wellFormed
          [{ phone := "+444", phone_normalized := "+444", name := "N",
             source := "S", message_type := "M", status := "responded",
             date_added := "T1", date_updated := "T9", notes := "" }]) := by
  have h := (C7_update_lead_spec (StoreState.wellFormed
      [{ phone := "+444", phone_normalized := "+444", name := "N",
         source := "S", message_type := "M", status := "contacted",
         date_added := "T1", date_updated := "T1", notes := "" }])
    "+444" "responded" "" "T9").1
    ⟨{ phone := "+444", phone_normalized := "+444", name := "N",
       source := "S", message_type := "M", status := "contacted",
       date_added := "T1", date_updated := "T1", notes := "" },
      List.mem_singleton.mpr rfl, rfl⟩
  obtain ⟨pre, lead, post, hl, hpre, hm, heq, _⟩ := h
  rcases pre with _ | ⟨x, xs⟩
  · rw [List.nil_append] at hl
    injection hl with ha hb
    subst ha
    subst hb
    exact heq.trans (by rfl)
  · rw [List.cons_append] at hl
    injection hl with ha hb
    exact absurd hb.symm (by simp)

/-- C9 counterexample: add_lead reads the clock once per timestamp
field; a successful add whose two consecutive clock readings differ
stores date_added different from date_updated, refuting the claim that
the two timestamps are always equal at creation. -/
theorem C9_equal_timestamps_counterexample :
    (add_lead StoreState.missing ("+15551234567") "Biz" "reddit" "intro"
        "2024-06-01T10:00:00+00:00" "2024-06-01T10:00:00.000003+00:00").1 =
      "OK: Added +15551234567 (Biz) from reddit" ∧
    (add_lead StoreState.missing ("+15551234567") "Biz" "reddit" "intro"
        "2024-06-01T10:00:00+00:00" "2024-06-01T10:00:00.000003+00:00").2 =
      StoreState.wellFormed
        [{ phone := "+15551234567", phone_normalized := "+15551234567",
           name := "Biz", source := "reddit", message_type := "intro",
           status := "contacted",
           date_added := "2024-06-01T10:00:00+00:00",
           date_updated := "2024-06-01T10:00:00.000003+00:00",
           notes := "" }] ∧
    ("2024-06-01T10:00:00+00:00" : String) ≠
      "2024-06-01T10:00:00.000003+00:00" := by
  exact ⟨by rfl, by rfl, by decide⟩

/-- C9 amended: a successful (non-duplicate) add_lead appends a record
with status "contacted", date_added equal to the first clock reading of
the call and date_updated equal to the second, and persists the full
collection; the two timestamps coincide exactly when those two
consecutive clock readings do — the code does not force them equal. -/
theorem C9_add_lead_success_amended (store : StoreState)
    (phone name source msg t1 t2 : String)
    (h : ∀ lead ∈ load store,
      normalize_phone lead.phone ≠ normalize_phone phone) :
    add_lead store phone name source msg t1 t2 =
      ("OK: Added " ++ phone ++ " (" ++ name ++ ") from " ++ source,
        StoreState.wellFormed (load store ++
          [{ phone := phone, phone_normalized := normalize_phone phone,
             name := name, source := source, message_type := msg,
             status := "contacted", date_added := t1, date_updated := t2,
             notes := "" }])) := by
  rw [add_lead_of_not_found (find?_sameContact_eq_none.mpr h)
    name source msg t1 t2]
  rfl

/-- Witness for the amended C9 on an empty store. -/
theorem C9_add_lead_success_amended_witness :
    add_lead (StoreState.wellFormed []) "+888" "N8" "S8" "M8" "TA" "TB" =
      ("OK: Added +888 (N8) from S8",
        StoreState.wellFormed
          [{ phone := "+888", phone_normalized := "+888", name := "N8",
             source := "S8", message_type := "M8", status := "contacted",
             date_added := "TA", date_updated := "TB", notes := "" }]) := by
  have h := C9_add_lead_success_amended (StoreState.wellFormed [])
    "+888" "N8" "S8" "M8" "TA" "TB" (by intro lead hm; cases hm)
  exact h.trans (by rfl)

/-- C10: update_lead with both status and notes empty on a matching
record is not a no-op: it returns OK with the status unchanged, leaves
status and notes untouched, yet refreshes date_updated and rewrites the
persisted store. -/
theorem C10_update_lead_empty_fields (store : StoreState)
    (phone t : String)
    (hex : ∃ lead ∈ load store,
      normalize_phone lead.phone = normalize_phone phone) :
    ∃ pre lead post,
      load store = pre ++ lead :: post ∧
      update_lead store phone ("") ("") t =
        ("OK: Updated " ++ phone ++ " → status=" ++ lead.status,
          StoreState.wellFormed (pre ++
            { lead with date_updated := t } :: post)) ∧
      ({ lead with date_updated := t } : Lead).status = lead.status ∧
      ({ lead with date_updated := t } : Lead).notes = lead.notes ∧
      ({ lead with date_updated := t } : Lead).date_updated = t := by
  obtain ⟨l2, s, hu⟩ := updateFirst_isSome_of_mem hex
  obtain ⟨pre, lead, post, hl, hpre, hm, hl2, hs⟩ := updateFirst_eq_some hu
  refine ⟨pre, lead, post, hl, ?_, rfl, rfl, rfl⟩
  rw [update_lead_of_some hu, hs, hl2]
  rfl

/-- Witness for C10 at a concrete one-record store. -/
theorem C10_update_lead_empty_fields_witness :
    update_lead (StoreState.wellFormed
        [{ phone := "+555", phone_normalized := "+555", name := "N5",
           source := "S5", message_type := "M5", status := "responded",
           date_added := "T1", date_updated := "T2", notes := "nb" }])
      "+555" "" "" "T7" =
      ("OK: Updated +555 → status=responded",
        StoreState.wellFormed
          [{ phone := "+555", phone_normalized := "+555", name := "N5",
             source := "S5", message_type := "M5", status := "responded",
             date_added := "T1", date_updated := "T7", notes := "nb" }]) := by
  have h := C10_update_lead_empty_fields (StoreState.wellFormed
      [{ phone := "+555", phone_normalized := "+555", name := "N5",
         source := "S5", message_type := "M5", status := "responded",
         date_added := "T1", date_updated := "T2", notes := "nb" }])
    "+555" "T7"
    ⟨{ phone := "+555", phone_normalized := "+555", name := "N5",
       source := "S5", message_type := "M5", status := "responded",
       date_added := "T1", date_updated := "T2", notes := "nb" },
      List.mem_singleton.mpr rfl, rfl⟩
  obtain ⟨pre, lead, post, hl, heq, _⟩ := h
  rcases pre with _ | ⟨x, xs⟩
  · rw [List.nil_append] at hl
    injection hl with ha hb
    subst ha
    subst hb
    exact heq.trans (by rfl)
  · rw [List.cons_append] at hl
    injection hl with ha hb
    exact absurd hb.symm (by simp)

end LeadTracker

namespace SendWhatsApp

theorem execute_timeout_fst (url : String) {phone message : String}
    (hp : phone ≠ ("")) (hm : message ≠ (""))
    (h7 : 7 ≤ (normalize_phone phone).length)
    (h15 : (normalize_phone phone).length ≤ 15) :
    (execute url phone message BridgeEnv.timeout).1 =
      some { type := "send", «to» := phone_to_jid phone,
             text := message } := by
  rw [execute_timeout_eq url hp hm h7 h15]

theorem execute_timeout_snd (url : String) {phone message : String}
    (hp : phone ≠ ("")) (hm : message ≠ (""))
    (h7 : 7 ≤ (normalize_phone phone).length)
    (h15 : (normalize_phone phone).length ≤ 15) :
    (execute url phone message BridgeEnv.timeout).2 =
      "Warning: Message sent but no confirmation received (timeout). Check bridge logs." := by
  rw [execute_timeout_eq url hp hm h7 h15]

theorem execute_reply_fst (url : String) {phone message : String}
    (hp : phone ≠ ("")) (hm : message ≠ (""))
    (h7 : 7 ≤ (normalize_phone phone).length)
    (h15 : (normalize_phone phone).length ≤ 15)
    (t err : Option String) :
    (execute url phone message (BridgeEnv.reply t err)).1 =
      some { type := "send", «to» := phone_to_jid phone,
             text := message } := by
  rw [execute_reply_eq url hp hm h7 h15 t err]

theorem execute_reply_snd (url : String) {phone message : String}
    (hp : phone ≠ ("")) (hm : message ≠ (""))
    (h7 : 7 ≤ (normalize_phone phone).length)
    (h15 : (normalize_phone phone).length ≤ 15)
    (t err : Option String) :
    (execute url phone message (BridgeEnv.reply t err)).2 =
      (if t = some ("sent") then
        ("OK: Message sent to ") ++ phone ++ " (" ++ phone_to_jid phone ++ ")"
      else if t = some ("error") then
        ("Error from bridge: ") ++ err.getD ("unknown")
      else
        ("OK: Message dispatched to ") ++ phone ++ " (" ++
          phone_to_jid phone ++ ")") := by
  rw [execute_reply_eq url hp hm h7 h15 t err]

/-- C3: execute returns a validation error — independently of the
network environment and with no request transmitted — exactly when the
phone is empty, the message is empty, or the digit count of the phone
lies outside the inclusive range 7..15. -/
theorem C3_execute_validation (url phone message : String) :
    (phone = ("") ∨ message = ("") ∨
        (normalize_phone phone).length < 7 ∨
        15 < (normalize_phone phone).length) ↔
      (∀ env, (execute url phone message env).1 = none ∧
        ("Error:".toList <+: (execute url phone message env).2.toList) ∧
        execute url phone message env =
          execute url phone message BridgeEnv.timeout) := by
  constructor
  · intro h env
    by_cases hp : phone = ("")
    · rw [execute_empty_eq url (Or.inl hp) env,
        execute_empty_eq url (Or.inl hp) BridgeEnv.timeout]
      exact ⟨rfl, by decide, rfl⟩
    · by_cases hm : message = ("")
      · rw [execute_empty_eq url (Or.inr hm) env,
          execute_empty_eq url (Or.inr hm) BridgeEnv.timeout]
        exact ⟨rfl, by decide, rfl⟩
      · have hlen : (normalize_phone phone).length < 7 ∨
            15 < (normalize_phone phone).length := by
          rcases h with h1 | h2 | h3
          · exact absurd h1 hp
          · exact absurd h2 hm
          · exact h3
        rw [execute_badlen_eq url hp hm hlen env,
          execute_badlen_eq url hp hm hlen BridgeEnv.timeout]
        refine ⟨rfl, ?_, rfl⟩
        repeat apply prefix_string_append
        decide
  · intro hall
    by_contra hno
    push_neg at hno
    obtain ⟨hp, hm, h7, h15⟩ := hno
    obtain ⟨h1, _, _⟩ := hall BridgeEnv.timeout
    rw [execute_timeout_fst url hp hm h7 h15] at h1
    exact Option.noConfusion h1

/-- Witness for C3: digit count 6 is rejected before any connection,
digit count 7 passes validation. -/
theorem C3_execute_validation_witness :
    (execute default_bridge_url ("123456") "m" BridgeEnv.connectRefused).1 =
      none ∧
    ("Error:".toList <+:
      (execute default_bridge_url ("123456") "m"
        BridgeEnv.connectRefused).2.toList) ∧
    ¬(("1234567" : String) = ("") ∨ ("m" : String) = ("") ∨
        (normalize_phone ("1234567")).length < 7 ∨
        15 < (normalize_phone ("1234567")).length) := by
  have h1 := (C3_execute_validation default_bridge_url ("123456") "m").mp
    (by decide) BridgeEnv.connectRefused
  refine ⟨h1.1, h1.2.1, ?_⟩
  intro hd
  have h2 := ((C3_execute_validation default_bridge_url ("1234567") "m").mp
    hd BridgeEnv.timeout).1
  exact absurd h2 (by decide)

/-- C5: for a valid dispatch attempt, when no bridge message arrives
inside the fixed 15-unit wait, the outcome is the unconfirmed-timeout
warning: a string distinct from every reply outcome (confirmed or
bridge error), starting with Warning and not with Error — reported as a
success-with-warning, not a hard failure. -/
theorem C5_execute_timeout_outcome (url phone message : String)
    (hp : phone ≠ ("")) (hm : message ≠ (""))
    (h7 : 7 ≤ (normalize_phone phone).length)
    (h15 : (normalize_phone phone).length ≤ 15) :
    recv_timeout = 15 ∧
    (execute url phone message BridgeEnv.timeout).2 =
      "Warning: Message sent but no confirmation received (timeout). Check bridge logs." ∧
    ("Warning".toList <+:
      (execute url phone message BridgeEnv.timeout).2.toList) ∧
    ¬("Error".toList <+:
      (execute url phone message BridgeEnv.timeout).2.toList) ∧
    ∀ t err, (execute url phone message (BridgeEnv.reply t err)).2 ≠
      (execute url phone message BridgeEnv.timeout).2 := by
  have ht := execute_timeout_snd url hp hm h7 h15
  refine ⟨rfl, ht, by rw [ht]; decide, by rw [ht]; decide, ?_⟩
  intro t err
  rw [execute_reply_snd url hp hm h7 h15 t err, ht]
  by_cases h1 : t = some ("sent")
  · rw [if_pos h1]
    refine string_ne_of_head 'O' 'W' ?_ (by decide) (by decide)
    repeat apply head_string_append
    decide
  · rw [if_neg h1]
    by_cases h2 : t = some ("error")
    · rw [if_pos h2]
      refine string_ne_of_head 'E' 'W' ?_ (by decide) (by decide)
      repeat apply head_string_append
      decide
    · rw [if_neg h2]
      refine string_ne_of_head 'O' 'W' ?_ (by decide) (by decide)
      repeat apply head_string_append
      decide

/-- Witness for C5 at a concrete valid dispatch. -/
theorem C5_execute_timeout_outcome_witness :
    (execute default_bridge_url ("+1234567890") "hello"
        BridgeEnv.timeout).2 =
      "Warning: Message sent but no confirmation received (timeout). Check bridge logs." ∧
    (execute default_bridge_url ("+1234567890") "hello"
        (BridgeEnv.reply (some ("sent")) none)).2 ≠
      (execute default_bridge_url ("+1234567890") "hello"
        BridgeEnv.timeout).2 ∧
    (execute default_bridge_url ("+1234567890") "hello"
        (BridgeEnv.reply (some ("error")) (some ("boom")))).2 ≠
      (execute default_bridge_url ("+1234567890") "hello"
        BridgeEnv.timeout).2 := by
  have h := C5_execute_timeout_outcome default_bridge_url ("+1234567890")
    "hello" (by decide) (by decide) (by decide) (by decide)
  exact ⟨h.2.1, h.2.2.2.2 (some ("sent")) none,
    h.2.2.2.2 (some ("error")) (some ("boom"))⟩

/-- C6: for a valid dispatch attempt, a reply whose discriminator is
neither "sent" nor "error" is classified as a success (OK dispatched),
not as an error; only the "error" discriminator yields the bridge-error
outcome, carrying the bridge-supplied reason or the placeholder
"unknown" when the reason field is absent. -/
theorem C6_execute_reply_classification (url phone message : String)
    (hp : phone ≠ ("")) (hm : message ≠ (""))
    (h7 : 7 ≤ (normalize_phone phone).length)
    (h15 : (normalize_phone phone).length ≤ 15) :
    (∀ t err, t ≠ some ("sent") → t ≠ some ("error") →
      (execute url phone message (BridgeEnv.reply t err)).2 =
        "OK: Message dispatched to " ++ phone ++ " (" ++
          phone_to_jid phone ++ ")") ∧
    (∀ err, (execute url phone message
        (BridgeEnv.reply (some ("error")) err)).2 =
      "Error from bridge: " ++ err.getD ("unknown")) ∧
    ((execute url phone message
        (BridgeEnv.reply (some ("error")) none)).2 =
      "Error from bridge: unknown") ∧
    (∀ t err,
      ("Error from bridge:".toList <+:
          (execute url phone message (BridgeEnv.reply t err)).2.toList) ↔
        t = some ("error")) := by
  refine ⟨?_, ?_, ?_, ?_⟩
  · intro t err h1 h2
    rw [execute_reply_snd url hp hm h7 h15 t err, if_neg h1, if_neg h2]
  · intro err
    rw [execute_reply_snd url hp hm h7 h15 (some ("error")) err,
      if_neg (by decide), if_pos rfl]
  · rw [execute_reply_snd url hp hm h7 h15 (some ("error")) none,
      if_neg (by decide), if_pos rfl]
    rfl
  · intro t err
    rw [execute_reply_snd url hp hm h7 h15 t err]
    by_cases h1 : t = some ("sent")
    · rw [if_pos h1]
      constructor
      · intro hpre
        have hh : ("OK: Message sent to " ++ phone ++ " (" ++
            phone_to_jid phone ++ ")").toList.head? = some 'O' := by
          repeat apply head_string_append
          decide
        exact absurd hpre
          (not_prefix_of_head 'E' 'O' (by decide) hh (by decide))
      · intro he
        exact absurd (h1.symm.trans he) (by decide)
    · rw [if_neg h1]
      by_cases h2 : t = some ("error")
      · rw [if_pos h2]
        constructor
        · intro _
          exact h2
        · intro _
          repeat apply prefix_string_append
          decide
      · rw [if_neg h2]
        constructor
        · intro hpre
          have hh : ("OK: Message dispatched to " ++ phone ++ " (" ++
              phone_to_jid phone ++ ")").toList.head? = some 'O' := by
            repeat apply head_string_append
            decide
          exact absurd hpre
            (not_prefix_of_head 'E' 'O' (by decide) hh (by decide))
        · intro he
          exact absurd he h2

/-- Witness for C6: an intermediate status reply is treated as success,
an error reply without a reason yields the unknown placeholder. -/
theorem C6_execute_reply_classification_witness :
    (execute default_bridge_url ("+1234567890") "hi"
        (BridgeEnv.reply (some ("status")) none)).2 =
      "OK: Message dispatched to +1234567890 (1234567890@s.whatsapp.net)" ∧
    (execute default_bridge_url ("+1234567890") "hi"
        (BridgeEnv.reply (some ("error")) none)).2 =
      "Error from bridge: unknown" := by
  have h := C6_execute_reply_classification default_bridge_url
    ("+1234567890") "hi" (by decide) (by decide) (by decide) (by decide)
  exact ⟨(h.1 (some ("status")) none (by decide) (by decide)).trans
    (by rfl), h.2.2.1⟩

/-- C8: for every valid dispatch attempt that reaches the bridge, the
single transmitted request is the JSON object with discriminator "send",
destination equal to the address-mode digits of the phone with the fixed
suffix @s.whatsapp.net, and text equal to the message verbatim; the
address-mode normalization also drops a leading plus. -/
theorem C8_execute_outbound_request (url phone message : String)
    (hp : phone ≠ ("")) (hm : message ≠ (""))
    (h7 : 7 ≤ (normalize_phone phone).length)
    (h15 : (normalize_phone phone).length ≤ 15) :
    (∀ t err, (execute url phone message (BridgeEnv.reply t err)).1 =
      some { type := "send",
             «to» := normalize_phone phone ++ "@s.whatsapp.net",
             text := message }) ∧
    ((execute url phone message BridgeEnv.timeout).1 =
      some { type := "send",
             «to» := normalize_phone phone ++ "@s.whatsapp.net",
             text := message }) ∧
    phone_to_jid phone = normalize_phone phone ++ "@s.whatsapp.net" ∧
    normalize_phone (("+") ++ phone) = normalize_phone phone := by
  refine ⟨?_, ?_, rfl, ?_⟩
  · intro t err
    rw [execute_reply_fst url hp hm h7 h15 t err]
    rfl
  · rw [execute_timeout_fst url hp hm h7 h15]
    rfl
  · unfold normalize_phone
    rw [string_toList_append, List.filter_append]
    have h0 : List.filter Char.isDigit ("+").toList = [] := by decide
    rw [h0, List.nil_append]

/-- Witness for C8 at a concrete formatted phone number. -/
theorem C8_execute_outbound_request_witness :
    (execute default_bridge_url ("+1 (234) 567-8901") "msg body"
        (BridgeEnv.reply none none)).1 =
      some { type := "send", «to» := "12345678901@s.whatsapp.net",
             text := "msg body" } := by
  have h := C8_execute_outbound_request default_bridge_url
    ("+1 (234) 567-8901") "msg body" (by decide) (by decide) (by decide)
    (by decide)
  exact (h.1 none none).trans (by rfl)

end SendWhatsApp
